import Mathlib

/-!
Shallow embedding of the MouthwashPrivate game-server core, covering the
anti-cheat RPC gate (`src/hbplugin-mouthwashgg-anti-cheat/src/plugin.ts`) and
the room join/leave/broadcast machinery (`src/Hindenburg/src/worker/BaseRoom.ts`).
JavaScript numbers appearing in dynamic field positions are modelled as
`Option Int` (`none` corresponds to `undefined`); maps are modelled as
insertion-ordered association lists, mirroring the iteration order of
JavaScript `Map`/`Set`.
-/

namespace AC

/-- Severities of anti-cheat infractions, from `InfractionSeverity` in plugin.ts. -/
inductive InfractionSeverity
| low
| medium
| high
| critical
deriving DecidableEq

/-- The infraction names of `InfractionName` (enums.ts, external to src/) that
plugin.ts actually uses. -/
inductive InfractionName
| forbiddenRpcInnernetObject
| unknownRpcInnernetObject
| forbiddenRpcMeetingVote
| duplicateRpcMeetingVote
| invalidRpcMeetingVote
| invalidRpcColor
| invalidRpcName
| forbiddenRpcCode
| forbiddenRpcVent
| invalidRpcCode
| invalidRpcHat
| invalidRpcPet
| invalidRpcSkin
deriving DecidableEq

/-- RPC message tags. The source switches on `RpcMessageTag` (an external
numeric enum); only tag identity matters to the dispatch, so the tags that
appear in plugin.ts are constructors and every other numeric tag is
`other n` (hitting the `default` case of the first switch). -/
inductive RpcTag
| addVote
| castVote
| checkColor
| checkName
| clearVote
| close
| exiled
| murderPlayer
| playAnimation
| reportDeadBody
| setInfected
| setTasks
| setName
| setColor
| startMeeting
| syncSettings
| votingComplete
| bootFromVent
| climbLadder
| closeDoorsOfType
| completeTask
| enterVent
| exitVent
| repairSystem
| sendChat
| sendChatNote
| sendQuickChat
| setHat
| setPet
| setSkin
| setScanner
| setStartCounter
| snapTo
| updateSystem
| usePlatform
| other (n : Nat)
deriving DecidableEq

/-- An inbound RPC payload (`BaseRpcMessage` plus the fields the casts in
`onRpcMessageData` read). The casts (`rpcMessage as SetPetMessage` etc.) read
fields dynamically; a field absent from the concrete message is `undefined`
in JavaScript, hence `none` here. -/
structure RpcData where
  messageTag : RpcTag
  votingid : Option Int := none
  suspectid : Option Int := none
  color : Option Int := none
  name : Option String := none
  hat : Option Int := none
  pet : Option Int := none
  skin : Option Int := none
  ventid : Option Int := none
deriving DecidableEq

/-- The wrapping `RpcMessage` root message: target net id plus payload. -/
structure RpcMessage where
  netid : Nat
  data : RpcData
deriving DecidableEq

/-- Values appearing in the `additionalDetails` objects passed to
`createInfraction`. `jsUndefined` is JavaScript `undefined`; `tagVal` is a numeric
`RpcMessageTag` value kept symbolic (the numeric enum lives outside src/). -/
inductive DetailValue
| num (n : Int)
| str (s : String)
| boolean (b : Bool)
| tagVal (t : RpcTag)
| jsUndefined
deriving DecidableEq

/-- Detail object entry for an optional numeric field (`undefined` when absent). -/
def detailOfOpt : Option Int → DetailValue
| some n => .num n
| none => .jsUndefined

/-- Detail object entry for an optional string field. -/
def detailOfStrOpt : Option String → DetailValue
| some s => .str s
| none => .jsUndefined

/-- A recorded infraction (`PlayerInfraction` in plugin.ts). The `createdAt`
wall-clock timestamp is omitted (real time is outside the embedding). -/
structure PlayerInfraction where
  userId : Option String
  gameId : Option String
  playerPing : Nat
  infractionName : InfractionName
  additionalDetails : List (String × DetailValue)
  severity : InfractionSeverity
deriving DecidableEq

/-- A cosmetic item owned by a user (from the auth service payload). -/
structure Cosmetic where
  among_us_id : Int
  type : String
deriving DecidableEq

/-- An authenticated user as returned by `authApi.getConnectionUser`. -/
structure ACUser where
  id : String
  display_name : String
  owned_cosmetics : List Cosmetic
deriving DecidableEq

/-- The slice of a `Connection` that the anti-cheat plugin reads. -/
structure ACConnection where
  clientId : Nat
  roundTripPing : Nat
deriving DecidableEq

/-- The slice of a `PlayerData` that the anti-cheat plugin reads:
identity plus `info?.isDead` (whose `info` may be `undefined`). -/
structure ACPlayer where
  clientId : Nat
  playerId : Int
  infoIsDead : Option Bool
deriving DecidableEq

/-- A per-player vote state from `meetingHud.voteStates`. -/
structure VoteState where
  hasVoted : Bool
  votedForId : Int
deriving DecidableEq

/-- The meeting hud slice: its net id and the vote-state map keyed by player id. -/
structure MeetingHud where
  netId : Nat
  voteStates : List (Int × VoteState)
deriving DecidableEq

/-- Component subtype, used for the `instanceof` checks of the second switch
in `onRpcMessageData`. -/
inductive ComponentKind
| playerControl
| playerPhysics
| customNetworkTransform
| otherKind
deriving DecidableEq

/-- The slice of a `Networkable` component the plugin reads. -/
structure ACComponent where
  netId : Nat
  ownerId : Int
  spawnType : Int
  kind : ComponentKind
deriving DecidableEq

/-- The slice of the `Room` the anti-cheat plugin reads. Identity comparisons
such as `this.room.meetingHud === component` are modelled by comparing net ids
(net ids are room-unique). -/
structure ACRoom where
  players : List ACPlayer
  meetingHud : Option MeetingHud
  voteBanSystemNetId : Option Nat
  shipStatusNetId : Option Nat
  shipStatusIsAirship : Bool
  actingHostsEnabled : Bool
  actingHostIds : List Nat
  hostClientId : Option Nat
  netobjects : List ACComponent
deriving DecidableEq

/-- External collaborators of the plugin, modelled as pure oracles:
the auth service, the cosmetic/color enumerations (numeric enums from
skeldjs constants, external to src/), the per-role anticheat exception table
(`getAnticheatExceptions` composed with `roleService.getPlayerRole`, keyed
here by client id, `false` when the player has no role), and the metrics
plugin presence and current game id. -/
structure ACEnv where
  getConnectionUser : Nat → Option ACUser
  hatEnum : Int → Bool
  petEnum : Int → Bool
  skinEnum : Int → Bool
  colorEnum : Int → Bool
  roleException : Nat → InfractionName → Bool
  metricsPresent : Bool
  lobbyCurrentGameId : Option String

/-- The plugin's mutable infraction bookkeeping: the unflushed buffer and
the batches that have been flushed to the metrics sink. -/
structure ACState where
  unflushed : List PlayerInfraction
  flushed : List (List PlayerInfraction)
deriving DecidableEq

/-- `this.room.getPlayerByPlayerId(pid)`: find a player by in-game player id.
Called with `undefined` (e.g. a missing dynamic field) it yields `undefined`. -/
def getPlayerByPlayerId (room : ACRoom) (pid : Int) : Option ACPlayer :=
  room.players.find? (fun p => p.playerId = pid)

/-- `connection.getPlayer()`: the room player with the connection's client id. -/
def connectionPlayer (room : ACRoom) (conn : ACConnection) : Option ACPlayer :=
  room.players.find? (fun p => p.clientId = conn.clientId)

/-- `x in E` for a numeric enum `E` and a dynamically-read field `x`
(`undefined in E` is `false` in JavaScript). -/
def optMember (f : Int → Bool) : Option Int → Bool
| some v => f v
| none => false

/-- `user.owned_cosmetics.findIndex(c => c.among_us_id === x && c.type === ty) !== -1`
for a dynamically-read field `x` (`n === undefined` is `false`). -/
def ownsCosmetic (user : ACUser) (v : Option Int) (ty : String) : Bool :=
  match v with
  | some n => user.owned_cosmetics.any (fun c => c.among_us_id = n ∧ c.type = ty)
  | none => false

/-- `flushPlayerInfractions` (plugin.ts lines 131-157): no-op when the buffer
is empty or the metrics plugin is absent (the buffer is NOT cleared in that
case); otherwise the whole buffer is sent to the metrics sink as one batch
and the buffer is cleared. -/
def flushPlayerInfractions (env : ACEnv) (st : ACState) : ACState :=
  if st.unflushed = [] then st
  else if env.metricsPresent = false then st
  else { unflushed := [], flushed := st.flushed ++ [st.unflushed] }

/-- The `PlayerInfraction` object that `createInfraction` builds and pushes
(plugin.ts lines 188-196); its `gameId` is
`this.metrics?.lobbyCurrentGameIds.get(this.room)` (undefined when the
metrics plugin is absent). -/
def mkInfraction (env : ACEnv) (sender : ACConnection) (name : InfractionName)
    (details : List (String × DetailValue)) (severity : InfractionSeverity)
    (user : ACUser) : PlayerInfraction :=
  { userId := some user.id
    gameId := if env.metricsPresent then env.lobbyCurrentGameId else none
    playerPing := sender.roundTripPing
    infractionName := name
    additionalDetails := details
    severity := severity }

/-- `createInfraction` (plugin.ts lines 159-211). Returns the infraction that
the TypeScript function returns (`none` when it bails out before pushing) and
the updated bookkeeping state. The early exits in order: sender has no player
in the room; the player's role has an anticheat exception for this infraction
name; the sender is not logged in. On a push: severities other than LOW
return immediately, so only a LOW-severity append can trigger the
size-over-100 flush. -/
def createInfraction (env : ACEnv) (room : ACRoom) (st : ACState)
    (sender : ACConnection) (name : InfractionName)
    (details : List (String × DetailValue)) (severity : InfractionSeverity) :
    Option PlayerInfraction × ACState :=
  match connectionPlayer room sender with
  | none => (none, st)
  | some _player =>
    if env.roleException sender.clientId name then (none, st)
    else
      match env.getConnectionUser sender.clientId with
      | none => (none, st)
      | some user =>
        let infraction := mkInfraction env sender name details severity user
        let st1 : ACState := { st with unflushed := st.unflushed ++ [infraction] }
        if severity ≠ .low then (some infraction, st1)
        else if st1.unflushed.length > 100 then
          (some infraction, flushPlayerInfractions env st1)
        else (some infraction, st1)

/-- The `room.gameend` listener `onRoomGameEnd`: flush the infraction buffer. -/
def onRoomGameEnd (env : ACEnv) (st : ACState) : ACState :=
  flushPlayerInfractions env st

/-- The `room.destroy` listener `onRoomDestroy`: flush the infraction buffer. -/
def onRoomDestroy (env : ACEnv) (st : ACState) : ACState :=
  flushPlayerInfractions env st

/-- The `{ netId, rpcId, spawnType }` detail object used by the
`ForbiddenRpcCode` infractions. -/
def codeDetails (component : ACComponent) (t : RpcTag) : List (String × DetailValue) :=
  [("netId", .num (Int.ofNat component.netId)), ("rpcId", .tagVal t),
   ("spawnType", .num component.spawnType)]

/-- The `{ voterPlayerId, suspectPlayerId }` detail object of the vote
infractions. -/
def voteDetails (rpc : RpcData) : List (String × DetailValue) :=
  [("voterPlayerId", detailOfOpt rpc.votingid),
   ("suspectPlayerId", detailOfOpt rpc.suspectid)]

/-- `this.room.meetingHud?.voteStates.get(castVoteMessage.votingid)`
(plugin.ts line 231). -/
def meetingVoteState (room : ACRoom) (rpc : RpcData) : Option VoteState :=
  room.meetingHud.bind (fun m =>
    rpc.votingid.bind (fun v => (m.voteStates.find? (fun e => e.1 = v)).map (·.2)))

/-- The `case RpcMessageTag.CastVote` body of the first switch in
`onRpcMessageData` (plugin.ts lines 219-248); also reached from
`case RpcMessageTag.AddVote`, whose body is fully commented out so control
falls through. `some r` models a `return` (or a bare `return` as
`some (none, st)`); `none` models reaching the `break`, i.e. falling on to
the second switch. -/
def castVoteCase (env : ACEnv) (room : ACRoom) (st : ACState)
    (rpc : RpcData) (sender : ACConnection) :
    Option (Option PlayerInfraction × ACState) :=
  match rpc.votingid.bind (getPlayerByPlayerId room) with
  | none =>
    some (createInfraction env room st sender .forbiddenRpcMeetingVote
      (voteDetails rpc) .high)
  | some voter =>
    if voter.clientId ≠ sender.clientId then
      some (createInfraction env room st sender .forbiddenRpcMeetingVote
        (voteDetails rpc) .critical)
    else
      match meetingVoteState room rpc with
      | none => some (none, st)
      | some voterState =>
        if voterState.hasVoted then
          some (createInfraction env room st sender .duplicateRpcMeetingVote
            (voteDetails rpc ++ [("alreadyVotedForPlayerId", .num voterState.votedForId)]) .high)
        else
          match rpc.suspectid.bind (getPlayerByPlayerId room) with
          | some suspect =>
            if suspect.infoIsDead = some true then
              some (createInfraction env room st sender .invalidRpcMeetingVote
                (voteDetails rpc ++ [("isDead", .boolean true)]) .high)
            else none
          | none =>
            if rpc.suspectid ≠ some 255 then
              some (createInfraction env room st sender .invalidRpcMeetingVote
                (voteDetails rpc ++ [("isDead", .boolean false)]) .high)
            else none

/-- The `case RpcMessageTag.SetSkin` body (plugin.ts lines 327-332); also
reached by fall-through from `SetPet`. No `break` follows its check, so a
skin that passes falls into the `SetScanner` case, which breaks (`none`). -/
def setSkinCase (env : ACEnv) (room : ACRoom) (st : ACState)
    (rpc : RpcData) (sender : ACConnection) :
    Option (Option PlayerInfraction × ACState) :=
  if rpc.skin = some 9999999 then some (none, st)
  else if optMember env.skinEnum rpc.skin = false then
    some (createInfraction env room st sender .invalidRpcSkin
      [("skinId", detailOfOpt rpc.skin)] .critical)
  else none

/-- The `case RpcMessageTag.SetPet` body (plugin.ts lines 317-326); also
reached by fall-through from `SetHat`. On passing its check it falls through
into the `SetSkin` case. -/
def setPetCase (env : ACEnv) (room : ACRoom) (st : ACState)
    (rpc : RpcData) (sender : ACConnection) :
    Option (Option PlayerInfraction × ACState) :=
  if rpc.pet = some 9999999 then some (none, st)
  else
    match env.getConnectionUser sender.clientId with
    | none => some (none, st)
    | some user =>
      if optMember env.petEnum rpc.pet = false ∧ ownsCosmetic user rpc.pet "PET" = false then
        some (createInfraction env room st sender .invalidRpcPet
          [("petId", detailOfOpt rpc.pet)] .critical)
      else setSkinCase env room st rpc sender

/-- The `case RpcMessageTag.SetHat` body (plugin.ts lines 308-316). There is
no `break` after the hat check: whether or not the sender is logged in, a hat
that passes falls through into the `SetPet` case (where the `pet` field of
the actual `SetHatMessage` is read as `undefined`). -/
def setHatCase (env : ACEnv) (room : ACRoom) (st : ACState)
    (rpc : RpcData) (sender : ACConnection) :
    Option (Option PlayerInfraction × ACState) :=
  if rpc.hat = some 9999999 then some (none, st)
  else
    match env.getConnectionUser sender.clientId with
    | some user =>
      if optMember env.hatEnum rpc.hat = false ∧ ownsCosmetic user rpc.hat "HAT" = false then
        some (createInfraction env room st sender .invalidRpcHat
          [("hatId", detailOfOpt rpc.hat)] .critical)
      else setPetCase env room st rpc sender
    | none => setPetCase env room st rpc sender

/-- The first `switch (rpcMessage.messageTag)` of `onRpcMessageData`
(plugin.ts lines 214-355). `some r` models a `return r`; `none` models
reaching a `break`, after which the second switch runs. -/
def firstSwitch (env : ACEnv) (room : ACRoom) (st : ACState)
    (component : ACComponent) (rpc : RpcData) (sender : ACConnection) :
    Option (Option PlayerInfraction × ACState) :=
  match rpc.messageTag with
  | .addVote => castVoteCase env room st rpc sender
  | .castVote => castVoteCase env room st rpc sender
  | .checkColor =>
    if optMember env.colorEnum rpc.color = false then
      some (createInfraction env room st sender .invalidRpcColor
        [("colorId", detailOfOpt rpc.color)] .critical)
    else none
  | .checkName =>
    match env.getConnectionUser sender.clientId with
    | none => some (none, st)
    | some user =>
      if rpc.name ≠ some user.display_name then
        some (createInfraction env room st sender .invalidRpcName
          [("name", detailOfStrOpt rpc.name)] .critical)
      else none
  | .clearVote =>
    some (createInfraction env room st sender .forbiddenRpcCode (codeDetails component rpc.messageTag) .critical)
  | .close =>
    some (createInfraction env room st sender .forbiddenRpcCode (codeDetails component rpc.messageTag) .critical)
  | .exiled =>
    some (createInfraction env room st sender .forbiddenRpcCode (codeDetails component rpc.messageTag) .critical)
  | .murderPlayer =>
    some (createInfraction env room st sender .forbiddenRpcCode (codeDetails component rpc.messageTag) .critical)
  | .playAnimation =>
    some (createInfraction env room st sender .forbiddenRpcCode (codeDetails component rpc.messageTag) .critical)
  | .reportDeadBody =>
    some (createInfraction env room st sender .forbiddenRpcCode (codeDetails component rpc.messageTag) .critical)
  | .setInfected =>
    some (createInfraction env room st sender .forbiddenRpcCode (codeDetails component rpc.messageTag) .critical)
  | .setTasks =>
    some (createInfraction env room st sender .forbiddenRpcCode (codeDetails component rpc.messageTag) .critical)
  | .setName =>
    some (createInfraction env room st sender .forbiddenRpcCode (codeDetails component rpc.messageTag) .critical)
  | .setColor =>
    some (createInfraction env room st sender .forbiddenRpcCode (codeDetails component rpc.messageTag) .critical)
  | .startMeeting =>
    some (createInfraction env room st sender .forbiddenRpcCode (codeDetails component rpc.messageTag) .critical)
  | .syncSettings =>
    some (createInfraction env room st sender .forbiddenRpcCode (codeDetails component rpc.messageTag) .critical)
  | .votingComplete =>
    some (createInfraction env room st sender .forbiddenRpcCode (codeDetails component rpc.messageTag) .critical)
  | .bootFromVent =>
    some (createInfraction env room st sender .forbiddenRpcCode (codeDetails component rpc.messageTag) .critical)
  | .climbLadder => none
  | .closeDoorsOfType => none
  | .completeTask => none
  | .enterVent =>
    some (createInfraction env room st sender .forbiddenRpcVent
      [("ventId", detailOfOpt rpc.ventid)] .high)
  | .exitVent =>
    some (createInfraction env room st sender .forbiddenRpcVent
      [("ventId", detailOfOpt rpc.ventid)] .high)
  | .repairSystem => none
  | .sendChat => none
  | .sendChatNote => none
  | .sendQuickChat => none
  | .setHat => setHatCase env room st rpc sender
  | .setPet => setPetCase env room st rpc sender
  | .setSkin => setSkinCase env room st rpc sender
  | .setScanner => none
  | .setStartCounter =>
    if room.actingHostsEnabled ∧ sender.clientId ∉ room.actingHostIds then
      some (createInfraction env room st sender .forbiddenRpcCode
        (codeDetails component rpc.messageTag) .critical)
    else none
  | .snapTo =>
    if room.shipStatusIsAirship = false then
      some (createInfraction env room st sender .forbiddenRpcCode
        (codeDetails component .snapTo) .critical)
    else none
  | .updateSystem => none
  | .usePlatform => none
  | .other n =>
    some (createInfraction env room st sender .invalidRpcCode
      [("netId", .num (Int.ofNat component.netId)), ("rpcId", .tagVal (.other n))] .high)

/-- The second `switch` of `onRpcMessageData` (plugin.ts lines 357-404): the
component-class check. `return` when the tag is carried by the right
component; any mismatch (or a tag absent from this switch) falls out and
yields a Critical `ForbiddenRpcCode` infraction. -/
def componentClassCheck (env : ACEnv) (room : ACRoom) (st : ACState)
    (component : ACComponent) (rpc : RpcData) (sender : ACConnection) :
    Option PlayerInfraction × ACState :=
  let forbidden := createInfraction env room st sender .forbiddenRpcCode
    (codeDetails component rpc.messageTag) .critical
  match rpc.messageTag with
  | .addVote => if room.voteBanSystemNetId = some component.netId then (none, st) else forbidden
  | .castVote => if room.meetingHud.map (·.netId) = some component.netId then (none, st) else forbidden
  | .clearVote => if room.meetingHud.map (·.netId) = some component.netId then (none, st) else forbidden
  | .close => if room.meetingHud.map (·.netId) = some component.netId then (none, st) else forbidden
  | .votingComplete => if room.meetingHud.map (·.netId) = some component.netId then (none, st) else forbidden
  | .checkColor => if component.kind = .playerControl then (none, st) else forbidden
  | .checkName => if component.kind = .playerControl then (none, st) else forbidden
  | .completeTask => if component.kind = .playerControl then (none, st) else forbidden
  | .exiled => if component.kind = .playerControl then (none, st) else forbidden
  | .murderPlayer => if component.kind = .playerControl then (none, st) else forbidden
  | .playAnimation => if component.kind = .playerControl then (none, st) else forbidden
  | .reportDeadBody => if component.kind = .playerControl then (none, st) else forbidden
  | .sendChat => if component.kind = .playerControl then (none, st) else forbidden
  | .sendChatNote => if component.kind = .playerControl then (none, st) else forbidden
  | .sendQuickChat => if component.kind = .playerControl then (none, st) else forbidden
  | .setColor => if component.kind = .playerControl then (none, st) else forbidden
  | .setHat => if component.kind = .playerControl then (none, st) else forbidden
  | .setInfected => if component.kind = .playerControl then (none, st) else forbidden
  | .setName => if component.kind = .playerControl then (none, st) else forbidden
  | .setPet => if component.kind = .playerControl then (none, st) else forbidden
  | .setScanner => if component.kind = .playerControl then (none, st) else forbidden
  | .setSkin => if component.kind = .playerControl then (none, st) else forbidden
  | .setStartCounter => if component.kind = .playerControl then (none, st) else forbidden
  | .setTasks => if component.kind = .playerControl then (none, st) else forbidden
  | .startMeeting => if component.kind = .playerControl then (none, st) else forbidden
  | .syncSettings => if component.kind = .playerControl then (none, st) else forbidden
  | .usePlatform => if component.kind = .playerControl then (none, st) else forbidden
  | .climbLadder => if component.kind = .playerPhysics then (none, st) else forbidden
  | .enterVent => if component.kind = .playerPhysics then (none, st) else forbidden
  | .exitVent => if component.kind = .playerPhysics then (none, st) else forbidden
  | .snapTo => if component.kind = .customNetworkTransform then (none, st) else forbidden
  | .repairSystem => if room.shipStatusNetId = some component.netId then (none, st) else forbidden
  | .closeDoorsOfType => if room.shipStatusNetId = some component.netId then (none, st) else forbidden
  | _ => forbidden

/-- `onRpcMessageData` (plugin.ts lines 213-405): the first switch, then on
`break` the component-class switch. -/
def onRpcMessageData (env : ACEnv) (room : ACRoom) (st : ACState)
    (component : ACComponent) (rpc : RpcData) (sender : ACConnection) :
    Option PlayerInfraction × ACState :=
  match firstSwitch env room st component rpc sender with
  | some r => r
  | none => componentClassCheck env room st component rpc sender

/-- The guard of the acting-host handshake branch at the top of
`onRpcMessage` (plugin.ts line 409): the sender is the room's host, the
initial-settings routine has not finished, and the payload is a
`SyncSettingsMessage`. -/
def initialSyncBranch (room : ACRoom) (finishedRoutine : Bool)
    (message : RpcMessage) (sender : Option ACConnection) : Bool :=
  (match room.hostClientId, sender with
   | some h, some s => decide (h = s.clientId)
   | _, _ => false)
  && !finishedRoutine && decide (message.data.messageTag = .syncSettings)

/-- The observable outcome of `onRpcMessage`. `handledRpc` records whether
`component.HandleRpc(message.data)` was invoked (the RPC applied);
`adoptedInitialSettings` records the handshake branch;
`finishedRoutine` is the updated latch. -/
structure RpcHandleOutcome where
  handledRpc : Bool
  adoptedInitialSettings : Bool
  finishedRoutine : Bool
  st : ACState
deriving DecidableEq

/-- `onRpcMessage` (plugin.ts lines 407-440), the `@MessageHandler(RpcMessage)`
override. In order: the handshake `SyncSettings` branch; component lookup by
net id; for a known sender, the ownership gate
(`ownerId === -1 || ownerId !== sender.clientId` records a Critical
`ForbiddenRpcInnernetObject` infraction and swallows the RPC), then
`onRpcMessageData`, whose returned infraction suppresses `HandleRpc` exactly
when its severity is Critical; unknown net ids record a Medium
`UnknownRpcInnernetObject` infraction for known senders. -/
def onRpcMessage (env : ACEnv) (room : ACRoom) (st : ACState)
    (finishedRoutine : Bool) (message : RpcMessage)
    (sender : Option ACConnection) : RpcHandleOutcome :=
  if initialSyncBranch room finishedRoutine message sender then
    ⟨false, true, true, st⟩
  else
    match room.netobjects.find? (fun c => c.netId = message.netid) with
    | some component =>
      match sender with
      | some s =>
        if component.ownerId = -1 ∨ component.ownerId ≠ (s.clientId : Int) then
          let r := createInfraction env room st s .forbiddenRpcInnernetObject
            [("netId", .num (Int.ofNat message.netid)),
             ("rpcId", .tagVal message.data.messageTag)] .critical
          ⟨false, false, finishedRoutine, r.2⟩
        else
          let r := onRpcMessageData env room st component message.data s
          if (match r.1 with
              | some i => decide (i.severity = InfractionSeverity.critical)
              | none => false) = true then
            ⟨false, false, finishedRoutine, r.2⟩
          else
            ⟨true, false, finishedRoutine, r.2⟩
      | none => ⟨true, false, finishedRoutine, st⟩
    | none =>
      match sender with
      | some s =>
        let r := createInfraction env room st s .unknownRpcInnernetObject
          [("netId", .num (Int.ofNat message.netid)),
           ("rpcId", .tagVal message.data.messageTag)] .medium
        ⟨false, false, finishedRoutine, r.2⟩
      | none => ⟨false, false, finishedRoutine, st⟩

end AC

namespace RoomModel

/-- `SpecialClientId.Server` (BaseRoom.ts line 139): `2^31 - 2`. -/
def serverClientId : Int := 2147483646

/-- `SpecialClientId.Temp` (BaseRoom.ts line 140): `2^31 - 3`. -/
def tempClientId : Int := 2147483645

/-- `DisconnectReason.Error` (stable numeric value 17). -/
def disconnectError : Int := 17

/-- `DisconnectReason.Destroy` (stable numeric value 16), the default reason
of `BaseRoom.destroy`. -/
def disconnectDestroy : Int := 16

/-- Game-data messages carried inside `GameData`/`GameDataTo`. `sceneChange`
is the `SceneChangeMessage` the acting-host handshake sends; other game data
is kept opaque as `raw`. -/
inductive GameDataMsg
| sceneChange (clientId : Int) (scene : String)
| raw (tag : Nat)
deriving DecidableEq

/-- The root messages the modelled `BaseRoom` operations send. -/
inductive RootMessage
| joinGame (code : Int) (clientId : Int) (hostId : Int)
| joinedGame (code : Int) (clientId : Nat) (hostId : Int) (otherIds : List Nat)
| gameData (code : Int) (msgs : List GameDataMsg)
| gameDataTo (code : Int) (target : Int) (msgs : List GameDataMsg)
| removePlayer (code : Int) (clientId : Int) (reason : Int) (hostId : Int)
| alterGame (code : Int) (alterTag : Nat) (value : Nat)
| waitForHost (code : Int) (clientId : Nat)
| removeGame (reason : Int)
deriving DecidableEq

/-- One packet handed to a connection's `sendPacket`: the recipient's client
id, reliability, and the root messages inside. -/
structure SentPacket where
  recipient : Nat
  reliable : Bool
  messages : List RootMessage
deriving DecidableEq

/-- The output of a broadcast: the packets sent and the
`ClientBroadcastEvent`s emitted (recipient paired with the event's game
data). -/
structure BroadcastOut where
  packets : List SentPacket
  events : List (Nat × List GameDataMsg)
deriving DecidableEq

/-- `GameState` (skeldjs constant). -/
inductive GameState
| notStarted
| started
| ended
| destroyed
deriving DecidableEq

/-- The slice of `RoomsConfig` the modelled operations read. -/
structure RoomConfig where
  serverAsHost : Bool
deriving DecidableEq

/-- The slice of `BaseRoom` state the modelled operations touch. Connections
and players are insertion-ordered lists of client ids (JavaScript `Map` keys
iterate in insertion order); `actingHostIds` and `waitingForHost` are
insertion-ordered sets. -/
structure RoomState where
  code : Int
  hostId : Int
  gameState : GameState
  config : RoomConfig
  actingHostsEnabled : Bool
  actingHostIds : List Nat
  actingHostWaitingFor : List Nat
  waitingForHost : List Nat
  connections : List Nat
  players : List Nat
  finishedActingHostTransactionRoutine : Bool
  privacyPublic : Bool
  playerJoinedFlag : Bool
deriving DecidableEq

/-- The event listeners attached to the room, modelled as pure oracles:
per-recipient `ClientBroadcastEvent` cancellation and game-data alteration,
`RoomSelectHostEvent` cancellation and selection alteration (fed the default
candidate), and `RoomBeforeDestroyEvent` cancellation. -/
structure RoomEnv where
  broadcastCanceled : Nat → List GameDataMsg → List RootMessage → Bool
  alteredGameData : Nat → List GameDataMsg → List RootMessage → List GameDataMsg
  selectHostCanceled : Nat → Bool
  selectHostAltered : Nat → Nat
  beforeDestroyCanceled : Bool

/-- The loop of the multi-recipient path of `broadcastMessages`
(BaseRoom.ts lines 930-977): per non-excluded connection, emit the
`ClientBroadcastEvent`; if it is not canceled, wrap the (possibly altered)
game data in `GameDataTo` when `include` was supplied and in `GameData`
otherwise, append the payloads, and send when non-empty. -/
def broadcastLoop (env : RoomEnv) (st : RoomState) (gamedata : List GameDataMsg)
    (payloads : List RootMessage) (isInclude : Bool) (exclude : List Nat)
    (reliable : Bool) : List Nat → List SentPacket × List (Nat × List GameDataMsg)
| [] => ([], [])
| c :: rest =>
  let tail := broadcastLoop env st gamedata payloads isInclude exclude reliable rest
  if c ∈ exclude then tail
  else if env.broadcastCanceled c gamedata payloads then
    (tail.1, (c, gamedata) :: tail.2)
  else
    let altered := env.alteredGameData c gamedata payloads
    let wrap : List RootMessage :=
      if altered = [] then []
      else if isInclude then [.gameDataTo st.code (c : Int) altered]
      else [.gameData st.code altered]
    let messages := wrap ++ payloads
    (if messages = [] then tail.1 else ⟨c, reliable, messages⟩ :: tail.1,
     (c, gamedata) :: tail.2)

/-- `broadcastMessages` (BaseRoom.ts lines 866-980). Empty game data with
empty payloads returns at once. `includeConns = some l` models a supplied
`include` argument (note an empty supplied array is still "supplied": in the
source `include || [...connections]` keeps `[]` because an empty array is
truthy). A computed recipient list of length exactly one takes the dedicated
single-recipient path, which always wraps in `GameDataTo`. -/
def broadcastMessages (env : RoomEnv) (st : RoomState)
    (gamedata : List GameDataMsg) (payloads : List RootMessage)
    (includeConns : Option (List Nat)) (exclude : List Nat)
    (reliable : Bool) : BroadcastOut :=
  if gamedata = [] ∧ payloads = [] then ⟨[], []⟩
  else
    let clientsToBroadcast := includeConns.getD st.connections
    if clientsToBroadcast.length = 1 then
      match clientsToBroadcast.head? with
      | none => ⟨[], []⟩
      | some singleClient =>
        if singleClient ∈ exclude then ⟨[], []⟩
        else if env.broadcastCanceled singleClient gamedata payloads then
          ⟨[], [(singleClient, gamedata)]⟩
        else
          let altered := env.alteredGameData singleClient gamedata payloads
          let messages : List RootMessage :=
            (if altered = [] then []
             else [.gameDataTo st.code (singleClient : Int) altered]) ++ payloads
          ⟨if messages = [] then []
           else [⟨singleClient, reliable, messages⟩],
           [(singleClient, gamedata)]⟩
    else
      let r := broadcastLoop env st gamedata payloads includeConns.isSome exclude
        reliable clientsToBroadcast
      ⟨r.1, r.2⟩

/-- `broadcast` (BaseRoom.ts lines 1063-1072): resolve the recipient player
to a connection; a resolved connection becomes a one-element `include`,
otherwise the broadcast goes to everyone. -/
def broadcast (env : RoomEnv) (st : RoomState) (messages : List GameDataMsg)
    (reliable : Bool) (recipient : Option Nat) (payloads : List RootMessage) :
    BroadcastOut :=
  let includedConnection := recipient.bind (fun r =>
    if r ∈ st.connections then some r else none)
  broadcastMessages env st messages payloads
    (includedConnection.map (fun c => [c])) [] reliable

/-- `updateHostForClient` (BaseRoom.ts lines 1115-1129): the
`JoinGame(Temp) + RemovePlayer(Temp, hostId)` idiom, broadcast to the
recipient connection's player (to everyone when the recipient has no
player). -/
def updateHostForClient (env : RoomEnv) (st : RoomState) (hostId : Int)
    (recipient : Option Nat) : List SentPacket :=
  (broadcast env st [] true
    (recipient.bind (fun r => if r ∈ st.players then some r else none))
    [.joinGame st.code tempClientId hostId,
     .removePlayer st.code tempClientId disconnectError hostId]).packets

/-- `addActingHost` (BaseRoom.ts lines 1279-1289). `isConnection` records
whether the argument was already a `Connection` object (then no lookup in
`room.connections` happens); the host-view update is sent only when a
connection is at hand and `actingHostWaitingFor` is empty. -/
def addActingHost (env : RoomEnv) (st : RoomState) (clientId : Nat)
    (isConnection : Bool) : RoomState × List SentPacket :=
  let st' := { st with actingHostIds :=
    if clientId ∈ st.actingHostIds then st.actingHostIds
    else st.actingHostIds ++ [clientId] }
  let hasConnection := isConnection ∨ clientId ∈ st'.connections
  if hasConnection ∧ st'.actingHostWaitingFor = [] then
    (st', updateHostForClient env st' (clientId : Int) (some clientId))
  else (st', [])

/-- `destroy` (BaseRoom.ts lines 669-691): cancellable, then a `RemoveGame`
broadcast and the `Destroyed` state (the worker registry is outside the
modelled slice). -/
def destroy (env : RoomEnv) (st : RoomState) (reason : Int) :
    RoomState × List SentPacket :=
  if env.beforeDestroyCanceled then (st, [])
  else
    let out := broadcastMessages env st [] [.removeGame reason] none [] true
    ({ st with gameState := .destroyed }, out.packets)

/-- `_joinOtherClients` (BaseRoom.ts lines 1639-1676): each connection still
in `waitingForHost` receives a `JoinedGame` whose host field is its own id
when it is an enabled acting host and `room.hostId` otherwise; then
`waitingForHost` is cleared. -/
def joinOtherClients (st : RoomState) :
    RoomState × List SentPacket :=
  let pks := st.connections.filterMap (fun c =>
    if c ∈ st.waitingForHost then
      some ⟨c, true, [.joinedGame st.code c
        (if st.actingHostsEnabled then
          (if c ∈ st.actingHostIds then (c : Int) else st.hostId)
         else st.hostId)
        (st.connections.filter (· ≠ c))]⟩
    else none)
  ({ st with waitingForHost := [] }, pks)

/-- `handleJoin` (BaseRoom.ts lines 1365-1378) restricted to the modelled
slice: create the player if absent (component spawning when the server is
host is outside the modelled object graph). -/
def handleJoin (st : RoomState) (clientId : Nat) : RoomState :=
  if clientId ∈ st.players then st
  else { st with players := st.players ++ [clientId] }

/-- `this.players.get(this.hostId)`: the host player in classic mode. -/
def hostPlayer (st : RoomState) : Option Nat :=
  st.players.find? (fun p => (p : Int) = st.hostId)

/-- `handleRemoteJoin` (BaseRoom.ts lines 1380-1546). The very first line
returns when the client id is already a key of `room.connections`, before
anything is created, selected or sent. Otherwise: create the player; select
a host (SaaH: promote the joiner to acting host when there are none —
the joiner's connection is not yet registered, so no host-view packet goes
out; classic: set `hostId` when there is no host player); then either the
ended-room paths (host rejoin releasing the waiters, or parking in
`waitingForHost`) or the normal path (unshift onto `actingHostWaitingFor`,
send `JoinedGame + AlterGame` to the joiner, `JoinGame` to every connection
that has a player, then register the connection). -/
def handleRemoteJoin (env : RoomEnv) (st : RoomState) (joining : Nat) :
    RoomState × List SentPacket :=
  if joining ∈ st.connections then (st, [])
  else
    let stJ := handleJoin st joining
    let hostSel :=
      if stJ.config.serverAsHost then
        if stJ.actingHostIds = [] then
          if env.selectHostCanceled joining then (stJ, ([] : List SentPacket))
          else addActingHost env stJ (env.selectHostAltered joining) false
        else (stJ, [])
      else
        if (hostPlayer stJ).isNone then
          if env.selectHostCanceled joining then (stJ, [])
          else ({ stJ with hostId := ((env.selectHostAltered joining : Nat) : Int) }, [])
        else (stJ, [])
    let stH := hostSel.1
    let pkH := hostSel.2
    if stH.gameState = .ended ∧ stH.config.serverAsHost = false then
      if (joining : Int) = stH.hostId then
        let st1 := { stH with gameState := .notStarted,
                              connections := stH.connections ++ [joining] }
        let pkJoined : List SentPacket :=
          [⟨joining, true, [.joinedGame st1.code joining st1.hostId
            (st1.connections.filter (· ≠ joining))]⟩]
        let outJG := broadcast env st1 [] true (some joining)
          [.joinGame st1.code (joining : Int) st1.hostId]
        let rJO := joinOtherClients st1
        (rJO.1, pkH ++ pkJoined ++ outJG.packets ++ rJO.2)
      else
        let st1 := { stH with waitingForHost := stH.waitingForHost ++ [joining],
                              connections := stH.connections ++ [joining] }
        let outJG := broadcast env st1 [] true (some joining)
          [.joinGame st1.code (joining : Int) st1.hostId]
        let pkWFH : List SentPacket := [⟨joining, true, [.waitForHost st1.code joining]⟩]
        (st1, pkH ++ outJG.packets ++ pkWFH)
    else
      let stW := { stH with actingHostWaitingFor := joining :: stH.actingHostWaitingFor }
      let pkJoined : List SentPacket :=
        [⟨joining, true,
          [.joinedGame stW.code joining stW.hostId stW.connections,
           .alterGame stW.code 1 (if stW.privacyPublic then 1 else 0)]⟩]
      let pkOthers := stW.connections.filterMap (fun c =>
        if c ∈ stW.players then
          some (⟨c, true, [.joinGame stW.code (joining : Int) stW.hostId]⟩ : SentPacket)
        else none)
      let stC := { stW with connections := stW.connections ++ [joining],
                            playerJoinedFlag := true }
      let stE := if stC.gameState = .ended then { stC with gameState := .notStarted } else stC
      (stE, pkH ++ pkJoined ++ pkOthers)

/-- The `actingHostWaitingFor` block of `handleRemoteLeave`
(BaseRoom.ts lines 1564-1577): when the departed player was in the list,
remove it, and if the list became empty while acting hosts are enabled,
restore every connected acting host's host view. -/
def leaveActingWaitPhase (env : RoomEnv) (st : RoomState)
    (playerLeft : Option Nat) : RoomState × List SentPacket :=
  match playerLeft with
  | some p =>
    if p ∈ st.actingHostWaitingFor then
      let st' := { st with actingHostWaitingFor := st.actingHostWaitingFor.erase p }
      if st'.actingHostWaitingFor = [] ∧ st'.actingHostsEnabled then
        (st', (st'.actingHostIds.map (fun i =>
          if i ∈ st'.connections then updateHostForClient env st' (i : Int) (some i)
          else [])).flatten)
      else (st', [])
    else (st, [])
  | none => (st, [])

/-- The host-reselection block of `handleRemoteLeave`
(BaseRoom.ts lines 1579-1607): in SaaH mode, when no acting host remains and
acting hosts are enabled, promote the first remaining connection (subject to
the `RoomSelectHostEvent`); in classic mode, when the leaver was the host,
select the first remaining connection as host, and if the room had ended and
the new host was waiting, release the waiters. -/
def leaveHostPhase (env : RoomEnv) (st : RoomState) (leaving : Nat) :
    RoomState × List SentPacket :=
  if st.config.serverAsHost then
    if st.actingHostIds = [] ∧ st.actingHostsEnabled then
      match st.connections.head? with
      | some cand =>
        if env.selectHostCanceled cand then (st, [])
        else addActingHost env st (env.selectHostAltered cand) true
      | none => (st, [])
    else (st, [])
  else
    if st.hostId = (leaving : Int) then
      match st.connections.head? with
      | some cand =>
        if env.selectHostCanceled cand then (st, [])
        else
          let newHost := env.selectHostAltered cand
          let st' := { st with hostId := (newHost : Int) }
          if st'.gameState = .ended ∧ newHost ∈ st'.waitingForHost then
            joinOtherClients { st' with gameState := .notStarted }
          else (st', [])
      | none => (st, [])
    else (st, [])

/-- The `RemovePlayer` fan-out closing `handleRemoteLeave`
(BaseRoom.ts lines 1609-1631): every remaining connection receives a
`RemovePlayer` whose host field is `Server` whenever the room is configured
server-as-host, and otherwise the recipient's own id when it is an enabled
acting host and `room.hostId` when it is not. -/
def removePlayerFanout (st : RoomState) (leaving : Nat) (reason : Int) :
    List SentPacket :=
  st.connections.map (fun c =>
    ⟨c, true, [.removePlayer st.code (leaving : Int) reason
      (if st.config.serverAsHost then serverClientId
       else if st.actingHostsEnabled then
         (if c ∈ st.actingHostIds then (c : Int) else st.hostId)
       else st.hostId)]⟩)

/-- `handleRemoteLeave` (BaseRoom.ts lines 1548-1637): remove the connection
and the player; destroy the room when no connection remains; otherwise drop
the leaver from `actingHostIds`, run the acting-host-waiting and
host-reselection phases, and fan out `RemovePlayer` to the remaining
connections. -/
def handleRemoteLeave (env : RoomEnv) (st : RoomState) (leaving : Nat)
    (reason : Int) : RoomState × List SentPacket :=
  let st1 := { st with waitingForHost := st.waitingForHost.erase leaving,
                       connections := st.connections.erase leaving }
  let playerLeft := if leaving ∈ st1.players then some leaving else none
  let st2 := { st1 with players := st1.players.erase leaving }
  if st2.connections = [] then destroy env st2 disconnectDestroy
  else
    let st3 := { st2 with actingHostIds := st2.actingHostIds.erase leaving }
    let r1 := leaveActingWaitPhase env st3 playerLeft
    let r2 := leaveHostPhase env r1.1 leaving
    (r2.1, r1.2 ++ r2.2 ++ removePlayerFanout r2.1 leaving reason)

/-- The `JoinGame(Temp) + GameDataTo(SceneChange("OnlineGame"))` pair sent
directly (no broadcast event) to one acting host during the acting-host
handshake (BaseRoom.ts lines 288-309). -/
def actingHostPairPacket (st : RoomState) (actingHostId : Nat) : SentPacket :=
  ⟨actingHostId, true,
   [.joinGame st.code tempClientId (actingHostId : Int),
    .gameDataTo st.code (actingHostId : Int)
      [.sceneChange tempClientId "OnlineGame"]]⟩

/-- The loop over `actingHostIds` of the `player.checkname` listener
(BaseRoom.ts lines 284-316). `flag` is the loop-local latch: the first
connected acting host found while the latch is clear and
`finishedActingHostTransactionRoutine` is false receives the handshake pair
and is skipped by `continue` (its host view is NOT restored); every other
connected acting host gets `updateHostForClient` with its own id. -/
def checkNameLoop (env : RoomEnv) (st : RoomState) :
    List Nat → Bool → List SentPacket
| [], _ => []
| i :: rest, flag =>
  if i ∈ st.connections then
    if st.finishedActingHostTransactionRoutine = false ∧ flag = false then
      actingHostPairPacket st i :: checkNameLoop env st rest true
    else
      updateHostForClient env st (i : Int) (some i) ++ checkNameLoop env st rest flag
  else checkNameLoop env st rest flag

/-- The `player.checkname` listener registered in the `BaseRoom` constructor
(BaseRoom.ts lines 280-321): when the player is the first entry of
`actingHostWaitingFor` and acting hosts are enabled, run the handshake loop
over the acting hosts; in every triggering case `actingHostWaitingFor` is
then emptied. -/
def onPlayerCheckName (env : RoomEnv) (st : RoomState) (player : Nat) :
    RoomState × List SentPacket :=
  if st.actingHostWaitingFor.head? = some player then
    ({ st with actingHostWaitingFor := [] },
     if st.actingHostsEnabled then checkNameLoop env st st.actingHostIds false
     else [])
  else (st, [])

end RoomModel

namespace AC

/-- A sample authenticated user: display name Alice, owning one hat cosmetic. -/
def sampleUser : ACUser := ⟨"u1", "Alice", [⟨50, "HAT"⟩]⟩

/-- A sample environment: client 5 is logged in as `sampleUser`, the cosmetic
and color enumerations contain the values 0-9 (0-11 for colors), no role has
anticheat exceptions, and the metrics plugin is loaded. -/
def sampleEnv : ACEnv :=
  { getConnectionUser := fun c => if c = 5 then some sampleUser else none
    hatEnum := fun n => decide (0 ≤ n ∧ n < 10)
    petEnum := fun n => decide (0 ≤ n ∧ n < 10)
    skinEnum := fun n => decide (0 ≤ n ∧ n < 10)
    colorEnum := fun n => decide (0 ≤ n ∧ n < 12)
    roleException := fun _ _ => false
    metricsPresent := true
    lobbyCurrentGameId := none }

/-- The connection of client 5. -/
def sampleSender : ACConnection := ⟨5, 42⟩

/-- A sample room: players 9 (player id 1) and 5 (player id 2), a meeting in
which player id 2 has already voted for player id 3, and two networked
components: net id 10 owned by the room (`ownerId = -1`) and net id 11 (a
PlayerControl) owned by client 5. -/
def sampleRoom : ACRoom :=
  { players := [⟨9, 1, none⟩, ⟨5, 2, none⟩]
    meetingHud := some ⟨20, [(2, ⟨true, 3⟩)]⟩
    voteBanSystemNetId := none
    shipStatusNetId := none
    shipStatusIsAirship := false
    actingHostsEnabled := true
    actingHostIds := [5]
    hostClientId := some 5
    netobjects := [⟨10, -1, 2, .otherKind⟩, ⟨11, 5, 2, .playerControl⟩] }

/-- The empty infraction bookkeeping state. -/
def emptyACState : ACState := ⟨[], []⟩

/-- A sample already-recorded infraction, used to pre-fill buffers. -/
def sampleInfraction : PlayerInfraction :=
  ⟨some "u", none, 0, .invalidRpcCode, [], .high⟩

end AC

namespace RoomModel

/-- A sample listener environment: no event is canceled and no game data or
host selection is altered. -/
def sampleRoomEnv : RoomEnv :=
  { broadcastCanceled := fun _ _ _ => false
    alteredGameData := fun _ g _ => g
    selectHostCanceled := fun _ => false
    selectHostAltered := id
    beforeDestroyCanceled := false }

/-- A server-as-host room with connections 1, 2, 3, where client 1 is the
sole acting host. -/
def leaveRoomState : RoomState :=
  { code := 100, hostId := serverClientId, gameState := .notStarted,
    config := ⟨true⟩, actingHostsEnabled := true, actingHostIds := [1],
    actingHostWaitingFor := [], waitingForHost := [], connections := [1, 2, 3],
    players := [1, 2, 3], finishedActingHostTransactionRoutine := true,
    privacyPublic := false, playerJoinedFlag := true }

/-- A server-as-host room mid-handshake: acting hosts 1 and 2 are connected,
the room is waiting for player 5 (first of `actingHostWaitingFor`), and the
initial-settings routine has not finished. -/
def checkNameRoomState : RoomState :=
  { code := 100, hostId := serverClientId, gameState := .notStarted,
    config := ⟨true⟩, actingHostsEnabled := true, actingHostIds := [1, 2],
    actingHostWaitingFor := [5], waitingForHost := [], connections := [1, 2, 5],
    players := [1, 2, 5], finishedActingHostTransactionRoutine := false,
    privacyPublic := false, playerJoinedFlag := true }

/-- A classic-mode room with a single connection 7, which is the host. -/
def singleConnRoomState : RoomState :=
  { code := 100, hostId := 7, gameState := .notStarted,
    config := ⟨false⟩, actingHostsEnabled := true, actingHostIds := [],
    actingHostWaitingFor := [], waitingForHost := [], connections := [7],
    players := [7], finishedActingHostTransactionRoutine := true,
    privacyPublic := false, playerJoinedFlag := true }

end RoomModel

namespace RoomModel

/-- Claim C9: calling `broadcastMessages` with an empty gamedata list and an
empty payloads list returns immediately: no `ClientBroadcastEvent` is
emitted, no packet is sent to any connection, and (the function being pure
over the room state) no room state is modified. -/
theorem emptyBroadcastNoop (env : RoomEnv) (st : RoomState)
    (includeConns : Option (List Nat)) (exclude : List Nat) (reliable : Bool) :
    broadcastMessages env st [] [] includeConns exclude reliable = ⟨[], []⟩ := by
  simp [broadcastMessages]

/-- Claim C10: `handleRemoteJoin` is idempotent on client id: when the
joining connection's client id is already a key of `room.connections`, it
returns with the room state untouched and no packet sent (no player created,
no host selected). -/
theorem handleRemoteJoinIdempotent (env : RoomEnv) (st : RoomState)
    (joining : Nat) (h : joining ∈ st.connections) :
    handleRemoteJoin env st joining = (st, []) := by
  simp [handleRemoteJoin, h]

/-- Claim C10 witness: client 7 is already connected in
`singleConnRoomState`, and re-joining it changes nothing. -/
theorem handleRemoteJoinIdempotent_witness :
    7 ∈ singleConnRoomState.connections ∧
    handleRemoteJoin sampleRoomEnv singleConnRoomState 7 = (singleConnRoomState, []) :=
  ⟨by decide, handleRemoteJoinIdempotent sampleRoomEnv singleConnRoomState 7 (by decide)⟩

end RoomModel

namespace RoomModel

/-- Packets already produced by the multi-recipient loop survive prepending
another recipient. -/
theorem broadcastLoop_tail_mem (env : RoomEnv) (st : RoomState)
    (gamedata : List GameDataMsg) (payloads : List RootMessage)
    (isInc : Bool) (exclude : List Nat) (reliable : Bool)
    (x : SentPacket) (a : Nat) (rest : List Nat)
    (hx : x ∈ (broadcastLoop env st gamedata payloads isInc exclude reliable rest).1) :
    x ∈ (broadcastLoop env st gamedata payloads isInc exclude reliable (a :: rest)).1 := by
  rw [broadcastLoop]
  by_cases hax : a ∈ exclude
  · simp only [if_pos hax]
    exact hx
  · by_cases hacan : env.broadcastCanceled a gamedata payloads = true
    · simp only [if_neg hax, if_pos hacan]
      exact hx
    · simp only [if_neg hax, if_neg hacan]
      repeat' split
      all_goals first
      | exact hx
      | exact List.mem_cons_of_mem _ hx

/-- In the multi-recipient loop, a non-excluded recipient whose broadcast
event is not canceled and whose altered game data is non-empty receives a
packet wrapping that game data in `GameDataTo` exactly when `include` was
supplied. -/
theorem broadcastLoop_mem (env : RoomEnv) (st : RoomState)
    (gamedata : List GameDataMsg) (payloads : List RootMessage)
    (isInc : Bool) (exclude : List Nat) (reliable : Bool) (c : Nat)
    (ids : List Nat) (hc : c ∈ ids) (hex : c ∉ exclude)
    (hcan : env.broadcastCanceled c gamedata payloads = false)
    (halt : env.alteredGameData c gamedata payloads ≠ []) :
    (⟨c, reliable,
      (if isInc then
        RootMessage.gameDataTo st.code (c : Int) (env.alteredGameData c gamedata payloads)
       else RootMessage.gameData st.code (env.alteredGameData c gamedata payloads)) ::
      payloads⟩ : SentPacket) ∈
      (broadcastLoop env st gamedata payloads isInc exclude reliable ids).1 := by
  induction ids with
  | nil => cases hc
  | cons a rest ih =>
    rcases List.mem_cons.mp hc with rfl | hmem
    · have hcan' : ¬ (env.broadcastCanceled c gamedata payloads = true) := by
        simp [hcan]
      rw [broadcastLoop]
      simp only [if_neg hex, if_neg hcan', if_neg halt]
      cases isInc <;> simp
    · exact broadcastLoop_tail_mem env st gamedata payloads isInc exclude reliable
        _ a rest (ih hmem)

/-- Claim C8 counterexample: in a room whose only connection is client 7,
calling `broadcastMessages` with non-empty game data and NO `include`
argument takes the single-recipient path and wraps the game data in
`GameDataTo` — not in `GameData` as the claim requires when `include` is not
supplied. -/
theorem gameDataWrap_counterexample :
    (broadcastMessages sampleRoomEnv singleConnRoomState [.raw 0] [] none [] true).packets =
      [⟨7, true, [.gameDataTo 100 7 [.raw 0]]⟩] ∧
    ∀ p ∈ (broadcastMessages sampleRoomEnv singleConnRoomState [.raw 0] [] none [] true).packets,
      RootMessage.gameData 100 [.raw 0] ∉ p.messages := by
  decide

/-- Claim C8 (amended): for a non-trivial `broadcastMessages` call and an
uncanceled per-recipient `ClientBroadcastEvent` with non-empty altered game
data: when the computed recipient list has exactly one entry, the game data
is always wrapped in `GameDataTo` (whether or not `include` was supplied);
when it has any other length, the wrapping is `GameDataTo` if and only if
the `include` parameter was supplied, and `GameData` otherwise. -/
theorem gameDataWrapping (env : RoomEnv) (st : RoomState)
    (gamedata : List GameDataMsg) (payloads : List RootMessage)
    (includeConns : Option (List Nat)) (exclude : List Nat) (reliable : Bool)
    (c : Nat) (hne : ¬(gamedata = [] ∧ payloads = []))
    (hex : c ∉ exclude)
    (hcan : env.broadcastCanceled c gamedata payloads = false)
    (halt : env.alteredGameData c gamedata payloads ≠ []) :
    (includeConns.getD st.connections = [c] →
      (broadcastMessages env st gamedata payloads includeConns exclude reliable).packets =
        [⟨c, reliable,
          RootMessage.gameDataTo st.code (c : Int) (env.alteredGameData c gamedata payloads)
            :: payloads⟩]) ∧
    ((includeConns.getD st.connections).length ≠ 1 →
      c ∈ includeConns.getD st.connections →
      (⟨c, reliable,
        (if includeConns.isSome then
          RootMessage.gameDataTo st.code (c : Int) (env.alteredGameData c gamedata payloads)
         else RootMessage.gameData st.code (env.alteredGameData c gamedata payloads)) ::
        payloads⟩ : SentPacket) ∈
        (broadcastMessages env st gamedata payloads includeConns exclude reliable).packets) := by
  have hcan' : ¬ (env.broadcastCanceled c gamedata payloads = true) := by simp [hcan]
  constructor
  · intro hsingle
    rw [broadcastMessages]
    rw [if_neg hne, hsingle]
    simp only [List.length_singleton, if_pos rfl, List.head?_cons]
    rw [if_neg hex, if_neg hcan', if_neg halt]
    simp
  · intro hlen hmem
    rw [broadcastMessages]
    rw [if_neg hne]
    rw [if_neg hlen]
    exact broadcastLoop_mem env st gamedata payloads includeConns.isSome exclude
      reliable c _ hmem hex hcan halt

/-- Claim C8 witness: the multi-recipient path at a concrete two-connection
room, both with and without `include`. -/
theorem gameDataWrapping_witness :
    ¬(([.raw 0] : List GameDataMsg) = [] ∧ ([] : List RootMessage) = []) ∧
    ((leaveRoomState.connections.length ≠ 1 → 2 ∈ leaveRoomState.connections →
      (⟨2, true, [RootMessage.gameData 100 [.raw 0]]⟩ : SentPacket) ∈
        (broadcastMessages sampleRoomEnv leaveRoomState [.raw 0] [] none [] true).packets)) :=
  ⟨by decide, fun h1 h2 => by
    have := (gameDataWrapping sampleRoomEnv leaveRoomState [.raw 0] [] none [] true 2
      (by decide) (by decide) (by decide) (by decide)).2 h1 h2
    simpa using this⟩

/-- Claim C3 counterexample: client 3 leaves `leaveRoomState`, a
server-as-host room in which remaining client 1 is an acting host. The
`RemovePlayer` sent to client 1 carries host field `Server`
(2147483646), not client 1's own id as the claim requires for an acting
host in a server-as-host room. -/
theorem removePlayerHostField_counterexample :
    leaveRoomState.config.serverAsHost = true ∧
    leaveRoomState.actingHostsEnabled = true ∧
    1 ∈ (handleRemoteLeave sampleRoomEnv leaveRoomState 3 0).1.actingHostIds ∧
    1 ∈ (handleRemoteLeave sampleRoomEnv leaveRoomState 3 0).1.connections ∧
    (handleRemoteLeave sampleRoomEnv leaveRoomState 3 0).2 =
      [⟨1, true, [.removePlayer 100 3 0 serverClientId]⟩,
       ⟨2, true, [.removePlayer 100 3 0 serverClientId]⟩] ∧
    serverClientId ≠ (1 : Int) := by
  decide

/-- Claim C3 (amended): after `handleRemoteLeave` on a room that still has
connections, every remaining connection `c` is sent a `RemovePlayer` whose
host field equals `Server` whenever the room is in server-as-host mode
(regardless of whether `c` is an acting host); otherwise it equals
`c.clientId` when acting hosts are enabled and `c` is an acting host, and
`room.hostId` when not. -/
theorem removePlayerHostField (env : RoomEnv) (st : RoomState)
    (leaving : Nat) (reason : Int)
    (h : ¬ (st.connections.erase leaving = []))
    (c : Nat) (hc : c ∈ (handleRemoteLeave env st leaving reason).1.connections) :
    (⟨c, true,
      [.removePlayer (handleRemoteLeave env st leaving reason).1.code (leaving : Int) reason
        (if (handleRemoteLeave env st leaving reason).1.config.serverAsHost then serverClientId
         else if (handleRemoteLeave env st leaving reason).1.actingHostsEnabled then
           (if c ∈ (handleRemoteLeave env st leaving reason).1.actingHostIds then (c : Int)
            else (handleRemoteLeave env st leaving reason).1.hostId)
         else (handleRemoteLeave env st leaving reason).1.hostId)]⟩ : SentPacket) ∈
      (handleRemoteLeave env st leaving reason).2 := by
  unfold handleRemoteLeave at hc ⊢
  rw [if_neg h] at hc ⊢
  refine List.mem_append_right _ ?_
  unfold removePlayerFanout
  exact List.mem_map_of_mem _ hc

/-- Claim C3 witness: client 1, an acting host remaining in the
server-as-host room `leaveRoomState`, receives its `RemovePlayer` with host
field `Server`. -/
theorem removePlayerHostField_witness :
    ¬ (leaveRoomState.connections.erase 3 = []) ∧
    (⟨1, true, [.removePlayer 100 3 0 serverClientId]⟩ : SentPacket) ∈
      (handleRemoteLeave sampleRoomEnv leaveRoomState 3 0).2 :=
  ⟨by decide,
   removePlayerHostField sampleRoomEnv leaveRoomState 3 0 (by decide) 1 (by decide)⟩

/-- Claim C4 counterexample: in `checkNameRoomState` both acting hosts 1 and
2 are connected and the routine latch is clear, yet when waiting player 5's
`CheckName` arrives only acting host 1 receives the
`JoinGame(Temp) + GameDataTo(SceneChange)` pair; acting host 2 instead
receives a plain host-view update and never gets the pair — contradicting
"sends every acting-host connection the paired JoinGame(Temp) +
GameDataTo(SceneChange) exactly once". Moreover host 1's own host view is
not restored, and `finishedActingHostTransactionRoutine` (still `false`
afterwards) is not what latched the sends — the loop-local `flag` is. -/
theorem checkNameHandshake_counterexample :
    checkNameRoomState.actingHostIds = [1, 2] ∧
    2 ∈ checkNameRoomState.connections ∧
    checkNameRoomState.finishedActingHostTransactionRoutine = false ∧
    (onPlayerCheckName sampleRoomEnv checkNameRoomState 5).2 =
      [actingHostPairPacket checkNameRoomState 1,
       ⟨2, true, [.joinGame 100 tempClientId 2,
                  .removePlayer 100 tempClientId disconnectError 2]⟩] ∧
    actingHostPairPacket checkNameRoomState 2 ∉
      (onPlayerCheckName sampleRoomEnv checkNameRoomState 5).2 ∧
    (onPlayerCheckName sampleRoomEnv checkNameRoomState 5).1.finishedActingHostTransactionRoutine = false := by
  decide

/-- Once the loop-local `flag` latch is set (or the routine already
finished), every remaining connected acting host receives only the
host-view restore. -/
theorem checkNameLoop_restore (env : RoomEnv) (st : RoomState)
    (ids : List Nat) (flag : Bool)
    (h : st.finishedActingHostTransactionRoutine = true ∨ flag = true) :
    checkNameLoop env st ids flag =
      (ids.map (fun i =>
        if i ∈ st.connections then updateHostForClient env st (i : Int) (some i)
        else [])).flatten := by
  induction ids with
  | nil => rw [checkNameLoop]; simp
  | cons a rest ih =>
    rw [checkNameLoop]
    have hcond : ¬ (st.finishedActingHostTransactionRoutine = false ∧ flag = false) := by
      rcases h with h | h <;> simp [h]
    by_cases hconn : a ∈ st.connections
    · rw [if_pos hconn, if_neg hcond, ih]
      simp [hconn]
    · rw [if_neg hconn, ih]
      simp [hconn]

/-- Claim C4 (amended): when the `CheckName` RPC of the first player in
`actingHostWaitingFor` arrives while acting hosts are enabled and
`finishedActingHostTransactionRoutine` is false, only the FIRST acting host
with a live connection is sent the paired
`JoinGame(Temp) + GameDataTo(SceneChange("OnlineGame"))` — latched within
the loop by a local flag — and its host view is not restored by this
routine; every other connected acting host receives only a host-view
restore, and `actingHostWaitingFor` becomes empty. -/
theorem checkNameHandshake (env : RoomEnv) (st : RoomState)
    (p firstHost : Nat) (rest : List Nat)
    (hwait : st.actingHostWaitingFor.head? = some p)
    (hen : st.actingHostsEnabled = true)
    (hfin : st.finishedActingHostTransactionRoutine = false)
    (hids : st.actingHostIds = firstHost :: rest)
    (hconn : firstHost ∈ st.connections) :
    (onPlayerCheckName env st p).1.actingHostWaitingFor = [] ∧
    (onPlayerCheckName env st p).2 =
      actingHostPairPacket st firstHost ::
        (rest.map (fun i =>
          if i ∈ st.connections then updateHostForClient env st (i : Int) (some i)
          else [])).flatten := by
  have htrig : st.actingHostWaitingFor.head? = some p := hwait
  constructor
  · rw [onPlayerCheckName, if_pos htrig]
  · rw [onPlayerCheckName, if_pos htrig]
    dsimp only
    rw [if_pos hen, hids, checkNameLoop, if_pos hconn,
      if_pos (And.intro hfin rfl)]
    rw [checkNameLoop_restore env st rest true (Or.inr rfl)]

/-- Claim C4 witness: the amended behavior at `checkNameRoomState`: host 1
gets the pair, host 2 only the restore, and the waiting list empties. -/
theorem checkNameHandshake_witness :
    (onPlayerCheckName sampleRoomEnv checkNameRoomState 5).1.actingHostWaitingFor = [] ∧
    (onPlayerCheckName sampleRoomEnv checkNameRoomState 5).2 =
      actingHostPairPacket checkNameRoomState 1 ::
        (([2] : List Nat).map (fun i =>
          if i ∈ checkNameRoomState.connections then
            updateHostForClient sampleRoomEnv checkNameRoomState (i : Int) (some i)
          else [])).flatten :=
  checkNameHandshake sampleRoomEnv checkNameRoomState 5 1 [2]
    (by decide) (by decide) (by decide) (by decide) (by decide)

end RoomModel

namespace AC

/-- Evaluation of `createInfraction` when every guard passes: the sender has
a player, no role exception applies, the sender is logged in, and the
severity is not LOW — the infraction is returned and appended with no
flush. -/
theorem createInfraction_push (env : ACEnv) (room : ACRoom) (st : ACState)
    (sender : ACConnection) (name : InfractionName)
    (details : List (String × DetailValue)) (severity : InfractionSeverity)
    (u : ACUser) (p : ACPlayer)
    (hp : connectionPlayer room sender = some p)
    (hr : env.roleException sender.clientId name = false)
    (hu : env.getConnectionUser sender.clientId = some u)
    (hs : severity ≠ .low) :
    createInfraction env room st sender name details severity =
      (some (mkInfraction env sender name details severity u),
       { st with unflushed :=
          st.unflushed ++ [mkInfraction env sender name details severity u] }) := by
  simp only [createInfraction, hp, hr, hu, Bool.false_eq_true, if_false]
  rw [if_pos hs]

/-- Claim C1 counterexample: component net id 10 in `sampleRoom` has
`ownerId = -1`; an RPC on it from client 5 is nevertheless rejected on
ownership grounds — swallowed with a Critical `ForbiddenRpcInnernetObject`
infraction — contradicting "when component.ownerId == -1 the room overrides
so the RPC is not rejected on ownership grounds". -/
theorem rpcOwnershipRoomOverride_counterexample :
    sampleRoom.netobjects.find? (fun k => k.netId = 10) = some ⟨10, -1, 2, .otherKind⟩ ∧
    (onRpcMessage sampleEnv sampleRoom emptyACState true ⟨10, { messageTag := .close }⟩
      (some sampleSender)).handledRpc = false ∧
    ((onRpcMessage sampleEnv sampleRoom emptyACState true ⟨10, { messageTag := .close }⟩
      (some sampleSender)).st.unflushed.map (fun i => (i.infractionName, i.severity))) =
      [(.forbiddenRpcInnernetObject, .critical)] := by
  decide

/-- Claim C1 (amended): for an inbound RPC whose target resolves to a
component, with a known sender, outside the handshake SyncSettings branch:
the RPC is applied only if `component.ownerId` equals `sender.clientId` —
and `ownerId == -1` is explicitly part of the rejection condition, so a
room-owned (-1) component's RPC is always rejected; on ownership failure
the RPC is swallowed and (when the sender resolves to a player with no role
exception and is logged in) a Critical `ForbiddenRpcInnernetObject`
infraction is appended. -/
theorem rpcOwnershipGate (env : ACEnv) (room : ACRoom) (st : ACState)
    (fin : Bool) (msg : RpcMessage) (s : ACConnection) (comp : ACComponent)
    (hcomp : room.netobjects.find? (fun k => k.netId = msg.netid) = some comp)
    (hsync : initialSyncBranch room fin msg (some s) = false) :
    ((comp.ownerId = -1 ∨ comp.ownerId ≠ (s.clientId : Int)) →
      (onRpcMessage env room st fin msg (some s)).handledRpc = false ∧
      (∀ p u, connectionPlayer room s = some p →
        env.roleException s.clientId .forbiddenRpcInnernetObject = false →
        env.getConnectionUser s.clientId = some u →
        (onRpcMessage env room st fin msg (some s)).st.unflushed =
          st.unflushed ++ [mkInfraction env s .forbiddenRpcInnernetObject
            [("netId", .num (Int.ofNat msg.netid)),
             ("rpcId", .tagVal msg.data.messageTag)] .critical u])) ∧
    ((onRpcMessage env room st fin msg (some s)).handledRpc = true →
      comp.ownerId = (s.clientId : Int) ∧ comp.ownerId ≠ -1) := by
  have hsync' : ¬ (initialSyncBranch room fin msg (some s) = true) := by
    simp [hsync]
  constructor
  · intro hown
    rw [onRpcMessage, if_neg hsync', hcomp]
    dsimp only
    rw [if_pos hown]
    refine ⟨rfl, ?_⟩
    intro p u hp hr hu
    rw [createInfraction_push env room st s .forbiddenRpcInnernetObject _ .critical u p
      hp hr hu (by simp)]
  · intro htrue
    constructor
    · by_contra hne
      have hfalse : (onRpcMessage env room st fin msg (some s)).handledRpc = false := by
        rw [onRpcMessage, if_neg hsync', hcomp]
        dsimp only
        rw [if_pos (Or.inr hne)]
      rw [hfalse] at htrue
      exact Bool.noConfusion htrue
    · intro hminus
      have hfalse : (onRpcMessage env room st fin msg (some s)).handledRpc = false := by
        rw [onRpcMessage, if_neg hsync', hcomp]
        dsimp only
        rw [if_pos (Or.inl hminus)]
      rw [hfalse] at htrue
      exact Bool.noConfusion htrue

/-- Claim C1 witness: ownership rejection with recording at a concrete
input: client 9's PlayerControl-owned component receives an RPC from client
5 and the gate swallows it. -/
theorem rpcOwnershipGate_witness :
    (sampleRoom.netobjects.find? (fun k => k.netId = 10) = some ⟨10, -1, 2, .otherKind⟩) ∧
    (onRpcMessage sampleEnv sampleRoom emptyACState true ⟨10, { messageTag := .close }⟩
      (some sampleSender)).handledRpc = false ∧
    (onRpcMessage sampleEnv sampleRoom emptyACState true ⟨10, { messageTag := .close }⟩
      (some sampleSender)).st.unflushed =
      [mkInfraction sampleEnv sampleSender .forbiddenRpcInnernetObject
        [("netId", .num 10), ("rpcId", .tagVal .close)] .critical sampleUser] :=
  ⟨by decide,
   ((rpcOwnershipGate sampleEnv sampleRoom emptyACState true ⟨10, { messageTag := .close }⟩
      sampleSender ⟨10, -1, 2, .otherKind⟩ (by decide) (by decide)).1 (Or.inl rfl)).1,
   ((rpcOwnershipGate sampleEnv sampleRoom emptyACState true ⟨10, { messageTag := .close }⟩
      sampleSender ⟨10, -1, 2, .otherKind⟩ (by decide) (by decide)).1 (Or.inl rfl)).2
      ⟨5, 2, none⟩ sampleUser (by decide) (by decide) (by decide)⟩

end AC

namespace AC

/-- Claim C2 counterexample: a duplicate `CastVote` (player id 2, who has
already voted, voting again through its own component net id 11) records a
High `DuplicateRpcMeetingVote` infraction, yet `HandleRpc` IS invoked — the
RPC is applied, contradicting "a duplicate CastVote ... is not applied to
the meeting state". Only Critical suppresses. -/
theorem severitySuppression_counterexample :
    ((onRpcMessage sampleEnv sampleRoom emptyACState true
      ⟨11, { messageTag := .castVote, votingid := some 2, suspectid := some 255 }⟩
      (some sampleSender)).st.unflushed.map (fun i => (i.infractionName, i.severity))) =
      [(.duplicateRpcMeetingVote, .high)] ∧
    (onRpcMessage sampleEnv sampleRoom emptyACState true
      ⟨11, { messageTag := .castVote, votingid := some 2, suspectid := some 255 }⟩
      (some sampleSender)).handledRpc = true := by
  decide

/-- Claim C2 (amended): for an inbound RPC with a known sender that passes
the ownership gate (outside the handshake branch), `HandleRpc` is suppressed
if and only if `onRpcMessageData` returned an infraction of severity
Critical: High (including the duplicate-CastVote case), Medium and Low
infractions never prevent the RPC from being applied. -/
theorem severitySuppressionGate (env : ACEnv) (room : ACRoom) (st : ACState)
    (fin : Bool) (msg : RpcMessage) (s : ACConnection) (comp : ACComponent)
    (hcomp : room.netobjects.find? (fun k => k.netId = msg.netid) = some comp)
    (hsync : initialSyncBranch room fin msg (some s) = false)
    (hown1 : comp.ownerId ≠ -1) (hown2 : comp.ownerId = (s.clientId : Int)) :
    ((onRpcMessage env room st fin msg (some s)).handledRpc = false ↔
      (∃ i, (onRpcMessageData env room st comp msg.data s).1 = some i ∧
        i.severity = .critical)) ∧
    (onRpcMessage env room st fin msg (some s)).st =
      (onRpcMessageData env room st comp msg.data s).2 := by
  have hsync' : ¬ (initialSyncBranch room fin msg (some s) = true) := by
    simp [hsync]
  have hrej : ¬ (comp.ownerId = -1 ∨ comp.ownerId ≠ (s.clientId : Int)) := by
    intro hor
    rcases hor with h1 | h2
    · exact hown1 h1
    · exact h2 hown2
  rw [onRpcMessage, if_neg hsync', hcomp]
  dsimp only
  rw [if_neg hrej]
  rcases hr : (onRpcMessageData env room st comp msg.data s).1 with _ | i
  · simp [hr]
  · by_cases hcrit : i.severity = .critical
    · simp [hr, hcrit]
    · simp [hr, hcrit]

/-- Claim C2 witness: the suppression criterion instantiated at the
duplicate-CastVote input: the RPC is handled because the recorded infraction
is High, not Critical. -/
theorem severitySuppressionGate_witness :
    ((onRpcMessage sampleEnv sampleRoom emptyACState true
      ⟨11, { messageTag := .castVote, votingid := some 2, suspectid := some 255 }⟩
      (some sampleSender)).handledRpc = false ↔
      (∃ i, (onRpcMessageData sampleEnv sampleRoom emptyACState ⟨11, 5, 2, .playerControl⟩
        { messageTag := .castVote, votingid := some 2, suspectid := some 255 }
        sampleSender).1 = some i ∧ i.severity = .critical)) :=
  (severitySuppressionGate sampleEnv sampleRoom emptyACState true
    ⟨11, { messageTag := .castVote, votingid := some 2, suspectid := some 255 }⟩
    sampleSender ⟨11, 5, 2, .playerControl⟩ (by decide) (by decide) (by decide)
    (by decide)).1

end AC

namespace AC

/-- Claim C5 counterexample: with 100 buffered infractions, appending a
HIGH-severity infraction brings the buffer to 101 (> 100) yet NO flush
happens — `createInfraction` returns before the size check for every
severity other than LOW, contradicting "the size-threshold flush occurring
regardless of the severity of the infraction just appended". -/
theorem flushThresholdSeverity_counterexample :
    (createInfraction sampleEnv sampleRoom ⟨List.replicate 100 sampleInfraction, []⟩
      sampleSender .forbiddenRpcVent [] .high).2.unflushed.length = 101 ∧
    (createInfraction sampleEnv sampleRoom ⟨List.replicate 100 sampleInfraction, []⟩
      sampleSender .forbiddenRpcVent [] .high).2.flushed = [] := by
  decide

/-- Claim C5 (amended): the per-room infraction buffer is flushed to the
metrics sink on game end and on room destroy (when the buffer is non-empty
and the metrics plugin is present), and on append only when the appended
infraction has severity Low and the buffer size then exceeds 100; appending
an infraction of any other severity never triggers the size-threshold
flush. -/
theorem flushConditions (env : ACEnv) (room : ACRoom) (st : ACState)
    (sender : ACConnection) (name : InfractionName)
    (details : List (String × DetailValue)) :
    (st.unflushed ≠ [] → env.metricsPresent = true →
      onRoomGameEnd env st = ⟨[], st.flushed ++ [st.unflushed]⟩ ∧
      onRoomDestroy env st = ⟨[], st.flushed ++ [st.unflushed]⟩) ∧
    (∀ p u, connectionPlayer room sender = some p →
      env.roleException sender.clientId name = false →
      env.getConnectionUser sender.clientId = some u →
      env.metricsPresent = true →
      100 < st.unflushed.length + 1 →
      (createInfraction env room st sender name details .low).2 =
        ⟨[], st.flushed ++
          [st.unflushed ++ [mkInfraction env sender name details .low u]]⟩) ∧
    (∀ severity, severity ≠ .low →
      (createInfraction env room st sender name details severity).2.flushed =
        st.flushed) := by
  refine ⟨?_, ?_, ?_⟩
  · intro h1 h2
    have h2' : ¬ (env.metricsPresent = false) := by simp [h2]
    constructor
    · rw [onRoomGameEnd, flushPlayerInfractions, if_neg h1, if_neg h2']
    · rw [onRoomDestroy, flushPlayerInfractions, if_neg h1, if_neg h2']
  · intro p u hp hr hu hm hlen
    have h2' : ¬ (env.metricsPresent = false) := by simp [hm]
    simp only [createInfraction, hp, hr, hu, Bool.false_eq_true, if_false]
    rw [if_neg (by simp)]
    rw [if_pos (by simp [hlen])]
    rw [flushPlayerInfractions]
    rw [if_neg (by simp), if_neg h2']
  · intro severity hs
    rw [createInfraction]
    cases hcp : connectionPlayer room sender
    · rfl
    · cases hre : env.roleException sender.clientId name
      · rw [if_neg (by simp)]
        cases hgu : env.getConnectionUser sender.clientId
        · rfl
        · dsimp only
          rw [if_pos hs]
      · simp

/-- Claim C5 witness: all three flush conditions exercised at concrete
states: a game-end flush, a LOW append crossing the 100 threshold, and a
HIGH append that leaves the flushed batches untouched. -/
theorem flushConditions_witness :
    onRoomGameEnd sampleEnv ⟨[sampleInfraction], []⟩ = ⟨[], [[sampleInfraction]]⟩ ∧
    (createInfraction sampleEnv sampleRoom ⟨List.replicate 100 sampleInfraction, []⟩
      sampleSender .forbiddenRpcVent [] .low).2 =
      ⟨[], [List.replicate 100 sampleInfraction ++
        [mkInfraction sampleEnv sampleSender .forbiddenRpcVent [] .low sampleUser]]⟩ ∧
    (createInfraction sampleEnv sampleRoom ⟨List.replicate 100 sampleInfraction, []⟩
      sampleSender .forbiddenRpcVent [] .high).2.flushed = [] :=
  ⟨((flushConditions sampleEnv sampleRoom ⟨[sampleInfraction], []⟩ sampleSender
      .forbiddenRpcVent []).1 (by decide) (by decide)).1,
   (flushConditions sampleEnv sampleRoom ⟨List.replicate 100 sampleInfraction, []⟩
      sampleSender .forbiddenRpcVent []).2.1 ⟨5, 2, none⟩ sampleUser
      (by decide) (by decide) (by decide) (by decide) (by decide),
   (flushConditions sampleEnv sampleRoom ⟨List.replicate 100 sampleInfraction, []⟩
      sampleSender .forbiddenRpcVent []).2.2 .high (by decide)⟩

end AC

namespace AC

/-- Claim C6 counterexample: a `CastVote` whose voter (player id 1, client 9)
exists but is not the sender's player (client 5) violates "voter must equal
sender's player", yet the recorded infraction has severity CRITICAL, not
High as the claim states for every kind of voting-rule violation. -/
theorem castVoteSeverity_counterexample :
    getPlayerByPlayerId sampleRoom 1 = some ⟨9, 1, none⟩ ∧
    sampleSender.clientId = 5 ∧
    ((onRpcMessageData sampleEnv sampleRoom emptyACState ⟨11, 5, 2, .playerControl⟩
      { messageTag := .castVote, votingid := some 1, suspectid := some 255 }
      sampleSender).1.map (fun i => (i.infractionName, i.severity))) =
      some (.forbiddenRpcMeetingVote, .critical) := by
  decide

/-- Claim C6 (amended): for a `CastVote` RPC from a sender that resolves to
a player, has no role exception and is logged in: a voter id that resolves
to no player yields a High `ForbiddenRpcMeetingVote`; a voter that is
another client's player yields a CRITICAL `ForbiddenRpcMeetingVote`; a voter
that has already voted yields a High `DuplicateRpcMeetingVote`; a dead
suspect, or an unresolved suspect id other than 255, yields a High
`InvalidRpcMeetingVote` — the last three contingent on the meeting vote
state existing (without it the check silently returns). -/
theorem castVoteSeverities (env : ACEnv) (room : ACRoom) (st : ACState)
    (comp : ACComponent) (rpc : RpcData) (sender : ACConnection)
    (p : ACPlayer) (u : ACUser)
    (htag : rpc.messageTag = .castVote)
    (hp : connectionPlayer room sender = some p)
    (hr : ∀ n, env.roleException sender.clientId n = false)
    (hu : env.getConnectionUser sender.clientId = some u) :
    (rpc.votingid.bind (getPlayerByPlayerId room) = none →
      (onRpcMessageData env room st comp rpc sender).1 =
        some (mkInfraction env sender .forbiddenRpcMeetingVote (voteDetails rpc) .high u)) ∧
    (∀ voter, rpc.votingid.bind (getPlayerByPlayerId room) = some voter →
      voter.clientId ≠ sender.clientId →
      (onRpcMessageData env room st comp rpc sender).1 =
        some (mkInfraction env sender .forbiddenRpcMeetingVote (voteDetails rpc) .critical u)) ∧
    (∀ voter vs, rpc.votingid.bind (getPlayerByPlayerId room) = some voter →
      voter.clientId = sender.clientId →
      meetingVoteState room rpc = some vs → vs.hasVoted = true →
      (onRpcMessageData env room st comp rpc sender).1 =
        some (mkInfraction env sender .duplicateRpcMeetingVote
          (voteDetails rpc ++ [("alreadyVotedForPlayerId", .num vs.votedForId)]) .high u)) ∧
    (∀ voter vs suspect, rpc.votingid.bind (getPlayerByPlayerId room) = some voter →
      voter.clientId = sender.clientId →
      meetingVoteState room rpc = some vs → vs.hasVoted = false →
      rpc.suspectid.bind (getPlayerByPlayerId room) = some suspect →
      suspect.infoIsDead = some true →
      (onRpcMessageData env room st comp rpc sender).1 =
        some (mkInfraction env sender .invalidRpcMeetingVote
          (voteDetails rpc ++ [("isDead", .boolean true)]) .high u)) ∧
    (∀ voter vs, rpc.votingid.bind (getPlayerByPlayerId room) = some voter →
      voter.clientId = sender.clientId →
      meetingVoteState room rpc = some vs → vs.hasVoted = false →
      rpc.suspectid.bind (getPlayerByPlayerId room) = none →
      rpc.suspectid ≠ some 255 →
      (onRpcMessageData env room st comp rpc sender).1 =
        some (mkInfraction env sender .invalidRpcMeetingVote
          (voteDetails rpc ++ [("isDead", .boolean false)]) .high u)) := by
  have hfs : firstSwitch env room st comp rpc sender =
      castVoteCase env room st rpc sender := by
    simp only [firstSwitch, htag]
  refine ⟨?_, ?_, ?_, ?_, ?_⟩
  · intro hv
    rw [onRpcMessageData, hfs, castVoteCase, hv]
    rw [createInfraction_push env room st sender .forbiddenRpcMeetingVote
      (voteDetails rpc) .high u p hp (hr _) hu (by simp)]
  · intro voter hv hne
    rw [onRpcMessageData, hfs, castVoteCase, hv]
    dsimp only
    rw [if_pos hne]
    rw [createInfraction_push env room st sender .forbiddenRpcMeetingVote
      (voteDetails rpc) .critical u p hp (hr _) hu (by simp)]
  · intro voter vs hv heq hvs hvoted
    rw [onRpcMessageData, hfs, castVoteCase, hv]
    dsimp only
    rw [if_neg (by simp [heq]), hvs]
    dsimp only
    rw [if_pos hvoted]
    rw [createInfraction_push env room st sender .duplicateRpcMeetingVote
      _ .high u p hp (hr _) hu (by simp)]
  · intro voter vs suspect hv heq hvs hvoted hsus hdead
    rw [onRpcMessageData, hfs, castVoteCase, hv]
    dsimp only
    rw [if_neg (by simp [heq]), hvs]
    dsimp only
    rw [if_neg (by simp [hvoted]), hsus]
    dsimp only
    rw [if_pos hdead]
    rw [createInfraction_push env room st sender .invalidRpcMeetingVote
      _ .high u p hp (hr _) hu (by simp)]
  · intro voter vs hv heq hvs hvoted hsus hne255
    rw [onRpcMessageData, hfs, castVoteCase, hv]
    dsimp only
    rw [if_neg (by simp [heq]), hvs]
    dsimp only
    rw [if_neg (by simp [hvoted]), hsus]
    dsimp only
    rw [if_pos hne255]
    rw [createInfraction_push env room st sender .invalidRpcMeetingVote
      _ .high u p hp (hr _) hu (by simp)]

/-- Claim C6 witness: the wrong-voter case instantiated: the voter resolves
to client 9's player while the sender is client 5, and the infraction
produced is the Critical `ForbiddenRpcMeetingVote`. -/
theorem castVoteSeverities_witness :
    (onRpcMessageData sampleEnv sampleRoom emptyACState ⟨11, 5, 2, .playerControl⟩
      { messageTag := .castVote, votingid := some 1, suspectid := some 255 }
      sampleSender).1 =
      some (mkInfraction sampleEnv sampleSender .forbiddenRpcMeetingVote
        (voteDetails { messageTag := .castVote, votingid := some 1, suspectid := some 255 })
        .critical sampleUser) :=
  (castVoteSeverities sampleEnv sampleRoom emptyACState ⟨11, 5, 2, .playerControl⟩
    { messageTag := .castVote, votingid := some 1, suspectid := some 255 }
    sampleSender ⟨5, 2, none⟩ sampleUser (by decide) (by decide)
    (fun _ => rfl) (by decide)).2.1 ⟨9, 1, none⟩ (by decide) (by decide)

end AC

namespace AC

/-- Claim C7 (code bug evidence): hat 1 is a member of the Hat enumeration
and client 5 is authenticated, so the claim (and the spec) demand no
infraction for this `SetHat`. The missing `break` makes the valid `SetHat`
fall through into the `SetPet` case, where the absent `pet` field (read as
`undefined`) fails both the enumeration and the ownership test: a Critical
`InvalidRpcPet` infraction is recorded and — being Critical — the hat
change itself is suppressed. -/
theorem setHatFallthroughBug :
    sampleEnv.hatEnum 1 = true ∧
    sampleEnv.getConnectionUser sampleSender.clientId = some sampleUser ∧
    ((onRpcMessageData sampleEnv sampleRoom emptyACState ⟨11, 5, 2, .playerControl⟩
      { messageTag := .setHat, hat := some 1 } sampleSender).1.map
        (fun i => (i.infractionName, i.severity))) = some (.invalidRpcPet, .critical) ∧
    (onRpcMessage sampleEnv sampleRoom emptyACState true
      ⟨11, { messageTag := .setHat, hat := some 1 }⟩
      (some sampleSender)).handledRpc = false := by
  decide

end AC
